import Mathlib

/-!
Shallow embedding of the Okta-backed identity-verification client
(package auth: struct Auth and its methods RegisterUser, GetUser,
GetUserFactors, VerifyEmailOrPhone, VerifyPasscode, makeRequest).

JSON values are modelled abstractly; Go `interface\x7b\x7d` values decoded
from JSON are `Json` terms, `map[string]interface\x7b\x7d` is an object
node with unique keys, and Go type assertions `v.(string)` are modelled
by `mapGetString` (missing key or non-string value gives ("", false),
as the two-result form of a failed assertion does in Go).

Go `error` values are modelled as the exact strings produced by
errors.New / fmt.Errorf in the source. The HTTP transport is a function
from requests to results, and every operation additionally returns the
list of HTTP requests it handed to the transport, in order.
-/

/-- Abstract JSON value, the decode target of encoding/json. -/
inductive Json where
  | null : Json
  | bool (b : Bool) : Json
  | num (n : Int) : Json
  | str (s : String) : Json
  | arr (elems : List Json) : Json
  | obj (fields : List (String × Json)) : Json

/-- Go map lookup plus string type assertion: `v, ok := m[k].(string)`. -/
def mapGetString (m : List (String × Json)) (k : String) : String × Bool :=
  match m.lookup k with
  | some (Json.str s) => (s, true)
  | _ => ("", false)

/-- Field lookup on a JSON object value. -/
def Json.getField : Json → String → Option Json
  | Json.obj fields, k => fields.lookup k
  | _, _ => none

/-- Go struct Auth: the configured client. -/
structure Auth where
  Domain : String
  APIToken : String
  ClientID : String
  ClientSecret : String

/-- Go struct UserProfile (registration profile). -/
structure UserProfile where
  FirstName : String
  LastName : String
  Email : String
  MobilePhone : String
  Login : String

/-- Go struct RegistrationRequest. -/
structure RegistrationRequest where
  Profile : UserProfile
  Activate : Bool
  SendEmail : Bool
  SendSMS : Bool

/-- The anonymous profile struct nested in Go struct User. -/
structure ProfileInfo where
  Email : String
  MobilePhone : String

/-- Go struct User (the decoded Okta identity). -/
structure User where
  ID : String
  Status : String
  Profile : ProfileInfo

/-- One element of ErrorResponse.ErrorCauses. -/
structure ErrorCause where
  ErrorSummary : String

/-- Go struct ErrorResponse (Okta API error body). -/
structure ErrorResponse where
  ErrorCode : String
  ErrorSummary : String
  ErrorLink : String
  ErrorID : String
  ErrorCauses : List ErrorCause

/-- Go struct VerifyFactorRequest. -/
structure VerifyFactorRequest where
  PassCode : String
  StateToken : String

/-- Go struct VerifyFactorResponse. -/
structure VerifyFactorResponse where
  Status : String
  SessionToken : String

/-- An outgoing HTTP request as built by makeRequest. -/
structure HttpRequest where
  method : String
  url : String
  body : Option Json
  headers : List (String × String)

/-- An HTTP response from the provider. Body none models an empty or
unparseable body (every JSON decode of it fails). -/
structure HttpResponse where
  StatusCode : Nat
  Body : Option Json

/-- Outcome of one transport round trip: a response, or the failure
taxonomy distinguished by makeRequest (url.Error with Timeout, or any
other transport error). -/
inductive TransportResult where
  | success (resp : HttpResponse) : TransportResult
  | timeoutFailure (msg : String) : TransportResult
  | networkFailure (msg : String) : TransportResult

/-- The HTTP transport (o.HTTPClient.Do), as a function of the request. -/
def Transport : Type := HttpRequest → TransportResult

/-- Decode one string-typed Go struct field from a JSON object field
list: absent or null leaves the zero value, a string is taken, any
other JSON type is a decode error (encoding/json semantics). -/
def decodeStringField (fields : List (String × Json)) (k : String) :
    Except String String :=
  match fields.lookup k with
  | none => Except.ok ""
  | some Json.null => Except.ok ""
  | some (Json.str s) => Except.ok s
  | some _ => Except.error ("cannot unmarshal value into string field " ++ k)

/-- json.Decode into struct User. -/
def decodeUser : Option Json → Except String User
  | none => Except.error "EOF"
  | some (Json.obj fields) => do
    let id ← decodeStringField fields "id"
    let status ← decodeStringField fields "status"
    let profile ←
      match fields.lookup "profile" with
      | none => Except.ok { Email := "", MobilePhone := "" }
      | some Json.null => Except.ok { Email := "", MobilePhone := "" }
      | some (Json.obj pf) => do
        let email ← decodeStringField pf "email"
        let phone ← decodeStringField pf "mobilePhone"
        Except.ok { Email := email, MobilePhone := phone }
      | some _ => Except.error "cannot unmarshal value into profile"
    Except.ok { ID := id, Status := status, Profile := profile }
  | some _ => Except.error "cannot unmarshal value into User"

/-- json.Decode of one element of ErrorResponse.ErrorCauses. -/
def decodeErrorCause : Json → Except String ErrorCause
  | Json.null => Except.ok { ErrorSummary := "" }
  | Json.obj fields => do
    let s ← decodeStringField fields "errorSummary"
    Except.ok { ErrorSummary := s }
  | _ => Except.error "cannot unmarshal value into errorCauses element"

/-- json.Decode into struct ErrorResponse. -/
def decodeErrorResponse : Option Json → Except String ErrorResponse
  | none => Except.error "EOF"
  | some (Json.obj fields) => do
    let code ← decodeStringField fields "errorCode"
    let summary ← decodeStringField fields "errorSummary"
    let link ← decodeStringField fields "errorLink"
    let id ← decodeStringField fields "errorId"
    let causes ←
      match fields.lookup "errorCauses" with
      | none => Except.ok []
      | some Json.null => Except.ok []
      | some (Json.arr xs) => xs.mapM decodeErrorCause
      | some _ => Except.error "cannot unmarshal value into errorCauses"
    Except.ok { ErrorCode := code, ErrorSummary := summary, ErrorLink := link,
                ErrorID := id, ErrorCauses := causes }
  | some _ => Except.error "cannot unmarshal value into ErrorResponse"

/-- json.Decode into []interface\x7b\x7d (the factor list). -/
def decodeFactors : Option Json → Except String (List Json)
  | none => Except.error "EOF"
  | some Json.null => Except.ok []
  | some (Json.arr xs) => Except.ok xs
  | some _ => Except.error "cannot unmarshal value into factor slice"

/-- json.Decode into struct VerifyFactorResponse. -/
def decodeVerifyFactorResponse : Option Json → Except String VerifyFactorResponse
  | none => Except.error "EOF"
  | some (Json.obj fields) => do
    let status ← decodeStringField fields "status"
    let tok ← decodeStringField fields "sessionToken"
    Except.ok { Status := status, SessionToken := tok }
  | some _ => Except.error "cannot unmarshal value into VerifyFactorResponse"

/-- fmt %t. -/
def boolToString (b : Bool) : String := if b then "true" else "false"

/-- json.Marshal of UserProfile (email and mobilePhone carry omitempty). -/
def encodeUserProfile (p : UserProfile) : Json :=
  Json.obj ([("firstName", Json.str p.FirstName), ("lastName", Json.str p.LastName)]
    ++ (if p.Email == "" then [] else [("email", Json.str p.Email)])
    ++ (if p.MobilePhone == "" then [] else [("mobilePhone", Json.str p.MobilePhone)])
    ++ [("login", Json.str p.Login)])

/-- json.Marshal of RegistrationRequest. -/
def encodeRegistrationRequest (req : RegistrationRequest) : Json :=
  Json.obj [("profile", encodeUserProfile req.Profile),
            ("activate", Json.bool req.Activate),
            ("sendEmail", Json.bool req.SendEmail),
            ("sendSMS", Json.bool req.SendSMS)]

/-- json.Marshal of VerifyFactorRequest (no omitempty on either field). -/
def encodeVerifyFactorRequest (r : VerifyFactorRequest) : Json :=
  Json.obj [("passCode", Json.str r.PassCode), ("stateToken", Json.str r.StateToken)]

/-- The three fixed headers set by makeRequest. -/
def stdHeaders (o : Auth) : List (String × String) :=
  [("Accept", "application/json"), ("Content-Type", "application/json"),
   ("Authorization", "SSWS " ++ o.APIToken)]

/-- http.NewRequestWithContext plus the three header Set calls. -/
def buildRequest (o : Auth) (method urlStr : String) (body : Option Json) : HttpRequest :=
  { method := method, url := urlStr, body := body, headers := stdHeaders o }

/-- makeRequest: build the request, run the transport, normalize
transport failures into the two fmt.Errorf strings of the source.
Also reports the request it handed to the transport. -/
def makeRequest (o : Auth) (T : Transport) (method urlStr : String)
    (body : Option Json) : Except String HttpResponse × List HttpRequest :=
  let req := buildRequest o method urlStr body
  match T req with
  | TransportResult.success resp => (Except.ok resp, [req])
  | TransportResult.timeoutFailure msg => (Except.error ("request timed out: " ++ msg), [req])
  | TransportResult.networkFailure msg => (Except.error ("request failed: " ++ msg), [req])

/-- The login defaulting performed at the top of RegisterUser: when
Profile.Login is empty it becomes the email when non-empty, else the
mobile phone. -/
def defaultedRegistration (req : RegistrationRequest) : RegistrationRequest :=
  if req.Profile.Login == "" then
    if req.Profile.Email != "" then
      { req with Profile := { req.Profile with Login := req.Profile.Email } }
    else
      { req with Profile := { req.Profile with Login := req.Profile.MobilePhone } }
  else req

/-- The request RegisterUser hands to the transport, for a
registration payload whose login has already been defaulted. -/
def registrationHttpRequest (o : Auth) (req : RegistrationRequest) : HttpRequest :=
  buildRequest o "POST" (o.Domain ++ "/api/v1/users?activate=" ++ boolToString req.Activate)
    (some (encodeRegistrationRequest req))

/-- Auth.RegisterUser. Result string is o.ClientID on success;
the second component is the list of requests handed to the transport. -/
def RegisterUser (o : Auth) (T : Transport) (req : RegistrationRequest) :
    Except String String × List HttpRequest :=
  if req.Profile.Email == "" && req.Profile.MobilePhone == "" then
    (Except.error "at least one of email or mobilePhone must be provided for registration", [])
  else
    let req := defaultedRegistration req
    match makeRequest o T "POST"
        (o.Domain ++ "/api/v1/users?activate=" ++ boolToString req.Activate)
        (some (encodeRegistrationRequest req)) with
    | (Except.error e, tr) => (Except.error e, tr)
    | (Except.ok resp, tr) =>
      if 200 ≤ resp.StatusCode ∧ resp.StatusCode < 300 then
        match decodeUser resp.Body with
        | Except.error e => (Except.error ("failed to decode user response: " ++ e), tr)
        | Except.ok _user => (Except.ok o.ClientID, tr)
      else
        match decodeErrorResponse resp.Body with
        | Except.error e =>
          (Except.error ("failed to decode error response (status: "
            ++ toString resp.StatusCode ++ "): " ++ e), tr)
        | Except.ok errorResp =>
          (Except.error ("failed to register user (status: "
            ++ toString resp.StatusCode ++ "): " ++ errorResp.ErrorSummary), tr)

/-- The request GetUser hands to the transport. -/
def getUserHttpRequest (o : Auth) (identifier : String) : HttpRequest :=
  buildRequest o "GET" (o.Domain ++ "/api/v1/users/" ++ identifier) none

/-- Auth.GetUser. -/
def GetUser (o : Auth) (T : Transport) (identifier : String) :
    Except String User × List HttpRequest :=
  match makeRequest o T "GET" (o.Domain ++ "/api/v1/users/" ++ identifier) none with
  | (Except.error e, tr) => (Except.error e, tr)
  | (Except.ok resp, tr) =>
    if resp.StatusCode = 200 then
      match decodeUser resp.Body with
      | Except.error e => (Except.error ("failed to decode user response: " ++ e), tr)
      | Except.ok user => (Except.ok user, tr)
    else
      match decodeErrorResponse resp.Body with
      | Except.error e =>
        (Except.error ("failed to decode error response (status: "
          ++ toString resp.StatusCode ++ "): " ++ e), tr)
      | Except.ok errorResp =>
        (Except.error ("failed to get user (status: "
          ++ toString resp.StatusCode ++ "): " ++ errorResp.ErrorSummary), tr)

/-- The request GetUserFactors hands to the transport. -/
def getUserFactorsHttpRequest (o : Auth) (userID : String) : HttpRequest :=
  buildRequest o "GET" (o.Domain ++ "/api/v1/users/" ++ userID ++ "/factors") none

/-- Auth.GetUserFactors. -/
def GetUserFactors (o : Auth) (T : Transport) (userID : String) :
    Except String (List Json) × List HttpRequest :=
  match makeRequest o T "GET" (o.Domain ++ "/api/v1/users/" ++ userID ++ "/factors") none with
  | (Except.error e, tr) => (Except.error e, tr)
  | (Except.ok resp, tr) =>
    if resp.StatusCode = 200 then
      match decodeFactors resp.Body with
      | Except.error e => (Except.error ("failed to decode factors response: " ++ e), tr)
      | Except.ok factors => (Except.ok factors, tr)
    else
      match decodeErrorResponse resp.Body with
      | Except.error e =>
        (Except.error ("failed to decode error response (status: "
          ++ toString resp.StatusCode ++ "): " ++ e), tr)
      | Except.ok errorResp =>
        (Except.error ("failed to get user factors (status: "
          ++ toString resp.StatusCode ++ "): " ++ errorResp.ErrorSummary), tr)

/-- The factor-scanning loop inlined in VerifyEmailOrPhone
(lines 344-369 of the source): first value is factorID, second is
factorType, both empty when the loop ends without a break. -/
def findFactorVEOP (user : User) (identifier : String) : List Json → String × String
  | [] => ("", "")
  | f :: rest =>
    match f with
    | Json.obj factorMap =>
      if !(mapGetString factorMap "provider").2
          || (mapGetString factorMap "provider").1 != "OKTA" then
        findFactorVEOP user identifier rest
      else if !(mapGetString factorMap "factorType").2 then
        findFactorVEOP user identifier rest
      else if ((mapGetString factorMap "factorType").1 == "email"
            && user.Profile.Email != ""
            && (identifier == user.Profile.Email || identifier == user.ID))
          || ((mapGetString factorMap "factorType").1 == "sms"
            && user.Profile.MobilePhone != ""
            && (identifier == user.Profile.MobilePhone || identifier == user.ID)) then
        ((mapGetString factorMap "id").1, (mapGetString factorMap "factorType").1)
      else
        findFactorVEOP user identifier rest
    | _ => findFactorVEOP user identifier rest

/-- The factor-scanning loop inlined in VerifyPasscode (lines 432-457
of the source); duplicated in the source, duplicated here. -/
def findFactorVP (user : User) (identifier : String) : List Json → String × String
  | [] => ("", "")
  | f :: rest =>
    match f with
    | Json.obj factorMap =>
      if !(mapGetString factorMap "provider").2
          || (mapGetString factorMap "provider").1 != "OKTA" then
        findFactorVP user identifier rest
      else if !(mapGetString factorMap "factorType").2 then
        findFactorVP user identifier rest
      else if ((mapGetString factorMap "factorType").1 == "email"
            && user.Profile.Email != ""
            && (identifier == user.Profile.Email || identifier == user.ID))
          || ((mapGetString factorMap "factorType").1 == "sms"
            && user.Profile.MobilePhone != ""
            && (identifier == user.Profile.MobilePhone || identifier == user.ID)) then
        ((mapGetString factorMap "id").1, (mapGetString factorMap "factorType").1)
      else
        findFactorVP user identifier rest
    | _ => findFactorVP user identifier rest

/-- The factor selection of VerifyEmailOrPhone: the loop followed by
the empty-factorID check that raises the factor-not-found error. -/
def MatchFactorVEOP (user : User) (identifier : String) (factors : List Json) :
    Except String (String × String) :=
  if (findFactorVEOP user identifier factors).1 == "" then
    Except.error "email or SMS factor not found for user"
  else Except.ok (findFactorVEOP user identifier factors)

/-- The factor selection of VerifyPasscode: its own loop followed by
the same empty-factorID check. -/
def MatchFactorVP (user : User) (identifier : String) (factors : List Json) :
    Except String (String × String) :=
  if (findFactorVP user identifier factors).1 == "" then
    Except.error "email or SMS factor not found for user"
  else Except.ok (findFactorVP user identifier factors)

/-- The challenge request VerifyEmailOrPhone hands to the transport
(POST with nil body). -/
def challengeHttpRequest (o : Auth) (userID factorID : String) : HttpRequest :=
  buildRequest o "POST"
    (o.Domain ++ "/api/v1/users/" ++ userID ++ "/factors/" ++ factorID ++ "/verify") none

/-- Auth.VerifyEmailOrPhone: GetUser, GetUserFactors, factor
selection, then the challenge POST; 200 and 202 accepted, the session
token decoded from the response body. -/
def VerifyEmailOrPhone (o : Auth) (T : Transport) (identifier : String) :
    Except String String × List HttpRequest :=
  match GetUser o T identifier with
  | (Except.error e, tr1) => (Except.error e, tr1)
  | (Except.ok user, tr1) =>
    match GetUserFactors o T user.ID with
    | (Except.error e, tr2) => (Except.error e, tr1 ++ tr2)
    | (Except.ok factors, tr2) =>
      match MatchFactorVEOP user identifier factors with
      | Except.error e => (Except.error e, tr1 ++ tr2)
      | Except.ok (factorID, factorType) =>
        match makeRequest o T "POST"
            (o.Domain ++ "/api/v1/users/" ++ user.ID ++ "/factors/" ++ factorID ++ "/verify")
            none with
        | (Except.error e, tr3) => (Except.error e, tr1 ++ tr2 ++ tr3)
        | (Except.ok resp, tr3) =>
          if resp.StatusCode ≠ 200 ∧ resp.StatusCode ≠ 202 then
            match decodeErrorResponse resp.Body with
            | Except.error e =>
              (Except.error ("failed to decode error response (status: "
                ++ toString resp.StatusCode ++ "): " ++ e), tr1 ++ tr2 ++ tr3)
            | Except.ok errorResp =>
              (Except.error ("failed to trigger " ++ factorType ++ " verification (status: "
                ++ toString resp.StatusCode ++ "): " ++ errorResp.ErrorSummary),
               tr1 ++ tr2 ++ tr3)
          else
            match decodeVerifyFactorResponse resp.Body with
            | Except.error e =>
              (Except.error ("failed to decode verification response: " ++ e),
               tr1 ++ tr2 ++ tr3)
            | Except.ok verifyResponse =>
              (Except.ok verifyResponse.SessionToken, tr1 ++ tr2 ++ tr3)

/-- The passcode-verify request VerifyPasscode hands to the transport. -/
def passcodeHttpRequest (o : Auth) (userID factorID passcode : String) : HttpRequest :=
  buildRequest o "POST"
    (o.Domain ++ "/api/v1/users/" ++ userID ++ "/factors/" ++ factorID ++ "/verify")
    (some (encodeVerifyFactorRequest { PassCode := passcode, StateToken := "" }))

/-- Auth.VerifyPasscode: GetUser, GetUserFactors, its own factor
selection, then the verify POST with the passcode body; any 2xx
returns o.ClientID without touching the response body. -/
def VerifyPasscode (o : Auth) (T : Transport) (identifier passcode : String) :
    Except String String × List HttpRequest :=
  match GetUser o T identifier with
  | (Except.error e, tr1) => (Except.error e, tr1)
  | (Except.ok user, tr1) =>
    match GetUserFactors o T user.ID with
    | (Except.error e, tr2) => (Except.error e, tr1 ++ tr2)
    | (Except.ok factors, tr2) =>
      match MatchFactorVP user identifier factors with
      | Except.error e => (Except.error e, tr1 ++ tr2)
      | Except.ok (factorID, factorType) =>
        match makeRequest o T "POST"
            (o.Domain ++ "/api/v1/users/" ++ user.ID ++ "/factors/" ++ factorID ++ "/verify")
            (some (encodeVerifyFactorRequest { PassCode := passcode, StateToken := "" })) with
        | (Except.error e, tr3) => (Except.error e, tr1 ++ tr2 ++ tr3)
        | (Except.ok resp, tr3) =>
          if 200 ≤ resp.StatusCode ∧ resp.StatusCode < 300 then
            (Except.ok o.ClientID, tr1 ++ tr2 ++ tr3)
          else
            match decodeErrorResponse resp.Body with
            | Except.error e =>
              (Except.error ("failed to decode error response (status: "
                ++ toString resp.StatusCode ++ "): " ++ e), tr1 ++ tr2 ++ tr3)
            | Except.ok errorResp =>
              (Except.error ("failed to verify " ++ factorType ++ " (status: "
                ++ toString resp.StatusCode ++ "): " ++ errorResp.ErrorSummary),
               tr1 ++ tr2 ++ tr3)

/-- The per-factor matching predicate both loops test before breaking:
the factor is a JSON object, its provider field asserts to the string
OKTA, its factorType field asserts to a string, and that type names a
non-empty profile field of the identity that the input identifier
equals (or the identifier equals the opaque user ID). -/
def factorMatches (user : User) (identifier : String) : Json → Bool
  | Json.obj factorMap =>
    (mapGetString factorMap "provider").2
    && (mapGetString factorMap "provider").1 == "OKTA"
    && (mapGetString factorMap "factorType").2
    && (((mapGetString factorMap "factorType").1 == "email"
          && user.Profile.Email != ""
          && (identifier == user.Profile.Email || identifier == user.ID))
      || ((mapGetString factorMap "factorType").1 == "sms"
          && user.Profile.MobilePhone != ""
          && (identifier == user.Profile.MobilePhone || identifier == user.ID)))
  | _ => false

/-- The string type assertion on the id field of a factor record, as
the loop body performs it at the break point. -/
def factorIdAssert : Json → String × Bool
  | Json.obj factorMap => mapGetString factorMap "id"
  | _ => ("", false)

/-- The string type assertion on the factorType field of a factor record. -/
def factorTypeAssert : Json → String × Bool
  | Json.obj factorMap => mapGetString factorMap "factorType"
  | _ => ("", false)

/-- The login string inside the profile object of the body of the
single request of a trace, when the trace has exactly one request with
a JSON body of that shape. -/
def wireLogin (tr : List HttpRequest) : Option String :=
  match tr with
  | [req] =>
    match req.body with
    | some j =>
      match (j.getField "profile").bind (fun p => p.getField "login") with
      | some (Json.str s) => some s
      | _ => none
    | none => none
  | _ => none

/-- Concrete identity used in witnesses: id u1, email a@x.com, no phone. -/
def cxUser : User :=
  { ID := "u1", Status := "ACTIVE", Profile := { Email := "a@x.com", MobilePhone := "" } }

/-- A fully qualifying OKTA email factor with id f1. -/
def cxFactorGood : Json :=
  Json.obj [("provider", Json.str "OKTA"), ("factorType", Json.str "email"),
            ("id", Json.str "f1")]

/-- An OKTA email factor whose record has no id field at all. -/
def cxFactorNoId : Json :=
  Json.obj [("provider", Json.str "OKTA"), ("factorType", Json.str "email")]

/-- Concrete client configuration used in witnesses. -/
def cxAuth : Auth :=
  { Domain := "https://d", APIToken := "tok", ClientID := "cid", ClientSecret := "sec" }

/-- The provider JSON for cxUser. -/
def cxUserJson : Json :=
  Json.obj [("id", Json.str "u1"), ("status", Json.str "ACTIVE"),
            ("profile", Json.obj [("email", Json.str "a@x.com")])]

/-- A transport for the happy verification flow: user lookup 200,
factor list 200 with the one good factor, and 202 with a sessionToken
body on the challenge or verify call. -/
def cxTransportHappy : Transport := fun req =>
  if req.url == "https://d/api/v1/users/a@x.com" then
    TransportResult.success { StatusCode := 200, Body := some cxUserJson }
  else if req.url == "https://d/api/v1/users/u1/factors" then
    TransportResult.success { StatusCode := 200, Body := some (Json.arr [cxFactorGood]) }
  else
    TransportResult.success
      { StatusCode := 202, Body := some (Json.obj [("sessionToken", Json.str "tok123")]) }

/-- A transport answering every request with 404 and the documented
not-found error body, error code E0000007. -/
def cxTransport404 : Transport := fun _ =>
  TransportResult.success
    { StatusCode := 404,
      Body := some (Json.obj [("errorCode", Json.str "E0000007"),
                              ("errorSummary", Json.str "Not found")]) }

/-- Same 404 transport with a different provider error code and the
same summary. -/
def cxTransport404b : Transport := fun _ =>
  TransportResult.success
    { StatusCode := 404,
      Body := some (Json.obj [("errorCode", Json.str "E0000099"),
                              ("errorSummary", Json.str "Not found")]) }

/-- A transport answering every request with 200 and the cxUser body
(a decodable Identity), used for registration witnesses. -/
def cxTransport200 : Transport := fun _ =>
  TransportResult.success { StatusCode := 200, Body := some cxUserJson }

/-- A registration request with email only and no login. -/
def cxRegistration : RegistrationRequest :=
  { Profile := { FirstName := "John", LastName := "Doe", Email := "a@x.com",
                 MobilePhone := "", Login := "" },
    Activate := true, SendEmail := true, SendSMS := false }

/-- A registration request with both contact fields empty. -/
def cxEmptyRegistration : RegistrationRequest :=
  { Profile := { FirstName := "John", LastName := "Doe", Email := "",
                 MobilePhone := "", Login := "" },
    Activate := true, SendEmail := false, SendSMS := false }

/-! Helper lemmas. -/

theorem mapGetString_snd_false {m : List (String × Json)} {k : String}
    (h : (mapGetString m k).2 = false) : mapGetString m k = ("", false) := by
  unfold mapGetString at h ⊢
  split at h
  · simp at h
  · rfl

theorem findFactorVEOP_cons (user : User) (identifier : String) (f : Json)
    (rest : List Json) :
    findFactorVEOP user identifier (f :: rest) =
      if factorMatches user identifier f then
        ((factorIdAssert f).1, (factorTypeAssert f).1)
      else findFactorVEOP user identifier rest := by
  cases f with
  | obj factorMap =>
    rcases hp : mapGetString factorMap "provider" with ⟨p1, p2⟩
    rcases ht : mapGetString factorMap "factorType" with ⟨t1, t2⟩
    simp only [findFactorVEOP, factorMatches, factorIdAssert, factorTypeAssert, hp, ht]
    cases p2 <;> cases t2 <;> cases hbeq : (p1 == "OKTA") <;> simp [hbeq, bne]
  | null => simp [findFactorVEOP, factorMatches]
  | bool b => simp [findFactorVEOP, factorMatches]
  | num n => simp [findFactorVEOP, factorMatches]
  | str s => simp [findFactorVEOP, factorMatches]
  | arr xs => simp [findFactorVEOP, factorMatches]

theorem findFactorVP_cons (user : User) (identifier : String) (f : Json)
    (rest : List Json) :
    findFactorVP user identifier (f :: rest) =
      if factorMatches user identifier f then
        ((factorIdAssert f).1, (factorTypeAssert f).1)
      else findFactorVP user identifier rest := by
  cases f with
  | obj factorMap =>
    rcases hp : mapGetString factorMap "provider" with ⟨p1, p2⟩
    rcases ht : mapGetString factorMap "factorType" with ⟨t1, t2⟩
    simp only [findFactorVP, factorMatches, factorIdAssert, factorTypeAssert, hp, ht]
    cases p2 <;> cases t2 <;> cases hbeq : (p1 == "OKTA") <;> simp [hbeq, bne]
  | null => simp [findFactorVP, factorMatches]
  | bool b => simp [findFactorVP, factorMatches]
  | num n => simp [findFactorVP, factorMatches]
  | str s => simp [findFactorVP, factorMatches]
  | arr xs => simp [findFactorVP, factorMatches]

theorem findFactorVEOP_eq_find (user : User) (identifier : String) (factors : List Json) :
    findFactorVEOP user identifier factors =
      match factors.find? (factorMatches user identifier) with
      | some f => ((factorIdAssert f).1, (factorTypeAssert f).1)
      | none => ("", "") := by
  induction factors with
  | nil => rfl
  | cons f rest ih =>
    rw [findFactorVEOP_cons]
    cases hm : factorMatches user identifier f <;> simp [List.find?_cons, hm, ih]

theorem findFactorVP_eq_find (user : User) (identifier : String) (factors : List Json) :
    findFactorVP user identifier factors =
      match factors.find? (factorMatches user identifier) with
      | some f => ((factorIdAssert f).1, (factorTypeAssert f).1)
      | none => ("", "") := by
  induction factors with
  | nil => rfl
  | cons f rest ih =>
    rw [findFactorVP_cons]
    cases hm : factorMatches user identifier f <;> simp [List.find?_cons, hm, ih]

theorem findFactor_loops_eq (user : User) (identifier : String) (factors : List Json) :
    findFactorVEOP user identifier factors = findFactorVP user identifier factors := by
  rw [findFactorVEOP_eq_find, findFactorVP_eq_find]

theorem matchFactor_selections_eq (user : User) (identifier : String) (factors : List Json) :
    MatchFactorVEOP user identifier factors = MatchFactorVP user identifier factors := by
  unfold MatchFactorVEOP MatchFactorVP
  rw [findFactor_loops_eq]

theorem MatchFactorVEOP_of_find_none {user : User} {identifier : String}
    {factors : List Json}
    (h : factors.find? (factorMatches user identifier) = none) :
    MatchFactorVEOP user identifier factors =
      Except.error "email or SMS factor not found for user" := by
  unfold MatchFactorVEOP
  rw [findFactorVEOP_eq_find, h]
  simp

theorem MatchFactorVEOP_of_find_some {user : User} {identifier : String}
    {factors : List Json} {f : Json}
    (h : factors.find? (factorMatches user identifier) = some f) :
    MatchFactorVEOP user identifier factors =
      if (factorIdAssert f).1 == "" then
        Except.error "email or SMS factor not found for user"
      else Except.ok ((factorIdAssert f).1, (factorTypeAssert f).1) := by
  unfold MatchFactorVEOP
  rw [findFactorVEOP_eq_find, h]

theorem makeRequest_snd (o : Auth) (T : Transport) (method urlStr : String)
    (body : Option Json) :
    (makeRequest o T method urlStr body).2 = [buildRequest o method urlStr body] := by
  simp only [makeRequest]
  cases h : T (buildRequest o method urlStr body) <;> simp [h]

theorem makeRequest_success {o : Auth} {T : Transport} {method urlStr : String}
    {body : Option Json} {resp : HttpResponse}
    (h : T (buildRequest o method urlStr body) = TransportResult.success resp) :
    makeRequest o T method urlStr body =
      (Except.ok resp, [buildRequest o method urlStr body]) := by
  simp [makeRequest, h]

theorem GetUser_ok {o : Auth} {T : Transport} {identifier : String}
    {resp : HttpResponse} {u : User}
    (h : T (getUserHttpRequest o identifier) = TransportResult.success resp)
    (hs : resp.StatusCode = 200) (hd : decodeUser resp.Body = Except.ok u) :
    GetUser o T identifier = (Except.ok u, [getUserHttpRequest o identifier]) := by
  unfold getUserHttpRequest at h ⊢
  unfold GetUser
  rw [makeRequest_success h]
  simp [hs, hd]

theorem GetUser_providerError {o : Auth} {T : Transport} {identifier : String}
    {resp : HttpResponse} {er : ErrorResponse}
    (h : T (getUserHttpRequest o identifier) = TransportResult.success resp)
    (hs : resp.StatusCode ≠ 200) (hd : decodeErrorResponse resp.Body = Except.ok er) :
    GetUser o T identifier =
      (Except.error ("failed to get user (status: " ++ toString resp.StatusCode
        ++ "): " ++ er.ErrorSummary), [getUserHttpRequest o identifier]) := by
  unfold getUserHttpRequest at h ⊢
  unfold GetUser
  rw [makeRequest_success h]
  simp [hs, hd]

theorem GetUserFactors_ok {o : Auth} {T : Transport} {userID : String}
    {resp : HttpResponse} {factors : List Json}
    (h : T (getUserFactorsHttpRequest o userID) = TransportResult.success resp)
    (hs : resp.StatusCode = 200) (hd : decodeFactors resp.Body = Except.ok factors) :
    GetUserFactors o T userID =
      (Except.ok factors, [getUserFactorsHttpRequest o userID]) := by
  unfold getUserFactorsHttpRequest at h ⊢
  unfold GetUserFactors
  rw [makeRequest_success h]
  simp [hs, hd]

theorem GetUser_snd (o : Auth) (T : Transport) (identifier : String) :
    (GetUser o T identifier).2 = [getUserHttpRequest o identifier] := by
  unfold GetUser getUserHttpRequest
  rcases hmk : makeRequest o T "GET" (o.Domain ++ "/api/v1/users/" ++ identifier) none
    with ⟨res, tr⟩
  have htr : tr = [buildRequest o "GET" (o.Domain ++ "/api/v1/users/" ++ identifier) none] := by
    have h2 := makeRequest_snd o T "GET" (o.Domain ++ "/api/v1/users/" ++ identifier) none
    rw [hmk] at h2
    exact h2
  cases res with
  | error e => simpa using htr
  | ok resp =>
    change ((if resp.StatusCode = 200 then _ else _ :
      Except String User × List HttpRequest)).2 = _
    split <;> split <;> simpa using htr

theorem GetUserFactors_snd (o : Auth) (T : Transport) (userID : String) :
    (GetUserFactors o T userID).2 = [getUserFactorsHttpRequest o userID] := by
  unfold GetUserFactors getUserFactorsHttpRequest
  rcases hmk : makeRequest o T "GET" (o.Domain ++ "/api/v1/users/" ++ userID ++ "/factors") none
    with ⟨res, tr⟩
  have htr : tr = [buildRequest o "GET"
      (o.Domain ++ "/api/v1/users/" ++ userID ++ "/factors") none] := by
    have h2 := makeRequest_snd o T "GET"
      (o.Domain ++ "/api/v1/users/" ++ userID ++ "/factors") none
    rw [hmk] at h2
    exact h2
  cases res with
  | error e => simpa using htr
  | ok resp =>
    change ((if resp.StatusCode = 200 then _ else _ :
      Except String (List Json) × List HttpRequest)).2 = _
    split <;> split <;> simpa using htr

theorem RegisterUser_validation_false {rq : RegistrationRequest}
    (hval : ¬(rq.Profile.Email = "" ∧ rq.Profile.MobilePhone = "")) :
    (rq.Profile.Email == "" && rq.Profile.MobilePhone == "") = false := by
  cases hE : rq.Profile.Email == "" <;> cases hP : rq.Profile.MobilePhone == "" <;>
    simp_all [beq_iff_eq]

theorem RegisterUser_ok {o : Auth} {T : Transport} {rq : RegistrationRequest}
    {resp : HttpResponse} {u : User}
    (hval : ¬(rq.Profile.Email = "" ∧ rq.Profile.MobilePhone = ""))
    (h : T (registrationHttpRequest o (defaultedRegistration rq)) = TransportResult.success resp)
    (h2xx : 200 ≤ resp.StatusCode ∧ resp.StatusCode < 300)
    (hd : decodeUser resp.Body = Except.ok u) :
    RegisterUser o T rq =
      (Except.ok o.ClientID, [registrationHttpRequest o (defaultedRegistration rq)]) := by
  unfold registrationHttpRequest at h ⊢
  unfold RegisterUser
  rw [RegisterUser_validation_false hval]
  simp only [Bool.false_eq_true, if_false]
  rw [makeRequest_success h]
  simp [h2xx, hd]

theorem RegisterUser_snd_of_valid {o : Auth} {T : Transport} {rq : RegistrationRequest}
    (hval : ¬(rq.Profile.Email = "" ∧ rq.Profile.MobilePhone = "")) :
    (RegisterUser o T rq).2 = [registrationHttpRequest o (defaultedRegistration rq)] := by
  unfold RegisterUser registrationHttpRequest
  rw [RegisterUser_validation_false hval]
  simp only [Bool.false_eq_true, if_false]
  rcases hmk : makeRequest o T "POST"
      (o.Domain ++ "/api/v1/users?activate=" ++ boolToString (defaultedRegistration rq).Activate)
      (some (encodeRegistrationRequest (defaultedRegistration rq))) with ⟨res, tr⟩
  have htr : tr = [buildRequest o "POST"
      (o.Domain ++ "/api/v1/users?activate=" ++ boolToString (defaultedRegistration rq).Activate)
      (some (encodeRegistrationRequest (defaultedRegistration rq)))] := by
    have h2 := makeRequest_snd o T "POST"
      (o.Domain ++ "/api/v1/users?activate=" ++ boolToString (defaultedRegistration rq).Activate)
      (some (encodeRegistrationRequest (defaultedRegistration rq)))
    rw [hmk] at h2
    exact h2
  cases res with
  | error e => simpa using htr
  | ok resp =>
    change ((if 200 ≤ resp.StatusCode ∧ resp.StatusCode < 300 then _ else _ :
      Except String String × List HttpRequest)).2 = _
    split <;> split <;> simpa using htr

theorem VerifyEmailOrPhone_accept {o : Auth} {T : Transport} {identifier : String}
    {respU respF respV : HttpResponse} {u : User} {factors : List Json}
    {fid fty : String} {v : VerifyFactorResponse}
    (hU : T (getUserHttpRequest o identifier) = TransportResult.success respU)
    (hUs : respU.StatusCode = 200) (hUd : decodeUser respU.Body = Except.ok u)
    (hF : T (getUserFactorsHttpRequest o u.ID) = TransportResult.success respF)
    (hFs : respF.StatusCode = 200) (hFd : decodeFactors respF.Body = Except.ok factors)
    (hM : MatchFactorVEOP u identifier factors = Except.ok (fid, fty))
    (hV : T (challengeHttpRequest o u.ID fid) = TransportResult.success respV)
    (hVs : respV.StatusCode = 200 ∨ respV.StatusCode = 202)
    (hVd : decodeVerifyFactorResponse respV.Body = Except.ok v) :
    (VerifyEmailOrPhone o T identifier).1 = Except.ok v.SessionToken := by
  unfold challengeHttpRequest at hV
  have hcond : ¬(respV.StatusCode ≠ 200 ∧ respV.StatusCode ≠ 202) := by
    rcases hVs with h | h <;> simp [h]
  unfold VerifyEmailOrPhone
  rw [GetUser_ok hU hUs hUd]
  simp only []
  rw [GetUserFactors_ok hF hFs hFd]
  simp only []
  rw [hM]
  simp only []
  rw [makeRequest_success hV]
  simp [hcond, hVd]

theorem VerifyEmailOrPhone_reject {o : Auth} {T : Transport} {identifier : String}
    {respU respF respV : HttpResponse} {u : User} {factors : List Json}
    {fid fty : String} {er : ErrorResponse}
    (hU : T (getUserHttpRequest o identifier) = TransportResult.success respU)
    (hUs : respU.StatusCode = 200) (hUd : decodeUser respU.Body = Except.ok u)
    (hF : T (getUserFactorsHttpRequest o u.ID) = TransportResult.success respF)
    (hFs : respF.StatusCode = 200) (hFd : decodeFactors respF.Body = Except.ok factors)
    (hM : MatchFactorVEOP u identifier factors = Except.ok (fid, fty))
    (hV : T (challengeHttpRequest o u.ID fid) = TransportResult.success respV)
    (hVs1 : respV.StatusCode ≠ 200) (hVs2 : respV.StatusCode ≠ 202)
    (hVd : decodeErrorResponse respV.Body = Except.ok er) :
    (VerifyEmailOrPhone o T identifier).1 =
      Except.error ("failed to trigger " ++ fty ++ " verification (status: "
        ++ toString respV.StatusCode ++ "): " ++ er.ErrorSummary) := by
  unfold challengeHttpRequest at hV
  unfold VerifyEmailOrPhone
  rw [GetUser_ok hU hUs hUd]
  simp only []
  rw [GetUserFactors_ok hF hFs hFd]
  simp only []
  rw [hM]
  simp only []
  rw [makeRequest_success hV]
  simp [hVs1, hVs2, hVd]

theorem VerifyPasscode_ok2xx {o : Auth} {T : Transport} {identifier passcode : String}
    {respU respF respV : HttpResponse} {u : User} {factors : List Json}
    {fid fty : String}
    (hU : T (getUserHttpRequest o identifier) = TransportResult.success respU)
    (hUs : respU.StatusCode = 200) (hUd : decodeUser respU.Body = Except.ok u)
    (hF : T (getUserFactorsHttpRequest o u.ID) = TransportResult.success respF)
    (hFs : respF.StatusCode = 200) (hFd : decodeFactors respF.Body = Except.ok factors)
    (hM : MatchFactorVP u identifier factors = Except.ok (fid, fty))
    (hV : T (passcodeHttpRequest o u.ID fid passcode) = TransportResult.success respV)
    (hVs : 200 ≤ respV.StatusCode ∧ respV.StatusCode < 300) :
    (VerifyPasscode o T identifier passcode).1 = Except.ok o.ClientID := by
  unfold passcodeHttpRequest at hV
  unfold VerifyPasscode
  rw [GetUser_ok hU hUs hUd]
  simp only []
  rw [GetUserFactors_ok hF hFs hFd]
  simp only []
  rw [hM]
  simp only []
  rw [makeRequest_success hV]
  simp [hVs]

theorem VerifyPasscode_non2xx_decodeFail {o : Auth} {T : Transport}
    {identifier passcode : String}
    {respU respF respV : HttpResponse} {u : User} {factors : List Json}
    {fid fty : String} {e : String}
    (hU : T (getUserHttpRequest o identifier) = TransportResult.success respU)
    (hUs : respU.StatusCode = 200) (hUd : decodeUser respU.Body = Except.ok u)
    (hF : T (getUserFactorsHttpRequest o u.ID) = TransportResult.success respF)
    (hFs : respF.StatusCode = 200) (hFd : decodeFactors respF.Body = Except.ok factors)
    (hM : MatchFactorVP u identifier factors = Except.ok (fid, fty))
    (hV : T (passcodeHttpRequest o u.ID fid passcode) = TransportResult.success respV)
    (hVs : ¬(200 ≤ respV.StatusCode ∧ respV.StatusCode < 300))
    (hVd : decodeErrorResponse respV.Body = Except.error e) :
    (VerifyPasscode o T identifier passcode).1 =
      Except.error ("failed to decode error response (status: "
        ++ toString respV.StatusCode ++ "): " ++ e) := by
  unfold passcodeHttpRequest at hV
  unfold VerifyPasscode
  rw [GetUser_ok hU hUs hUd]
  simp only []
  rw [GetUserFactors_ok hF hFs hFd]
  simp only []
  rw [hM]
  simp only []
  rw [makeRequest_success hV]
  simp [hVs, hVd]

theorem VerifyEmailOrPhone_snd_cases (o : Auth) (T : Transport) (identifier : String) :
    (VerifyEmailOrPhone o T identifier).2 = [getUserHttpRequest o identifier]
    ∨ (∃ uid : String, (VerifyEmailOrPhone o T identifier).2 =
        [getUserHttpRequest o identifier, getUserFactorsHttpRequest o uid])
    ∨ (∃ uid fid : String, (VerifyEmailOrPhone o T identifier).2 =
        [getUserHttpRequest o identifier, getUserFactorsHttpRequest o uid,
         challengeHttpRequest o uid fid]) := by
  unfold VerifyEmailOrPhone
  rcases h1 : GetUser o T identifier with ⟨res1, tr1⟩
  have htr1 : tr1 = [getUserHttpRequest o identifier] := by
    have h := GetUser_snd o T identifier
    rw [h1] at h
    exact h
  cases res1 with
  | error e => left; simpa using htr1
  | ok u =>
    dsimp only
    rcases h2 : GetUserFactors o T u.ID with ⟨res2, tr2⟩
    have htr2 : tr2 = [getUserFactorsHttpRequest o u.ID] := by
      have h := GetUserFactors_snd o T u.ID
      rw [h2] at h
      exact h
    cases res2 with
    | error e =>
      right; left
      exact ⟨u.ID, by simp [htr1, htr2]⟩
    | ok factors =>
      dsimp only
      cases h3 : MatchFactorVEOP u identifier factors with
      | error e =>
        right; left
        exact ⟨u.ID, by simp [htr1, htr2]⟩
      | ok p =>
        rcases p with ⟨fid, fty⟩
        dsimp only
        rcases h4 : makeRequest o T "POST"
            (o.Domain ++ "/api/v1/users/" ++ u.ID ++ "/factors/" ++ fid ++ "/verify") none
          with ⟨res3, tr3⟩
        have htr3 : tr3 = [challengeHttpRequest o u.ID fid] := by
          have h := makeRequest_snd o T "POST"
            (o.Domain ++ "/api/v1/users/" ++ u.ID ++ "/factors/" ++ fid ++ "/verify") none
          rw [h4] at h
          exact h
        right; right
        refine ⟨u.ID, fid, ?_⟩
        cases res3 with
        | error e => simp [htr1, htr2, htr3]
        | ok resp =>
          dsimp only
          split <;> split <;> simp [htr1, htr2, htr3]

theorem VerifyPasscode_snd_cases (o : Auth) (T : Transport) (identifier passcode : String) :
    (VerifyPasscode o T identifier passcode).2 = [getUserHttpRequest o identifier]
    ∨ (∃ uid : String, (VerifyPasscode o T identifier passcode).2 =
        [getUserHttpRequest o identifier, getUserFactorsHttpRequest o uid])
    ∨ (∃ uid fid : String, (VerifyPasscode o T identifier passcode).2 =
        [getUserHttpRequest o identifier, getUserFactorsHttpRequest o uid,
         passcodeHttpRequest o uid fid passcode]) := by
  unfold VerifyPasscode
  rcases h1 : GetUser o T identifier with ⟨res1, tr1⟩
  have htr1 : tr1 = [getUserHttpRequest o identifier] := by
    have h := GetUser_snd o T identifier
    rw [h1] at h
    exact h
  cases res1 with
  | error e => left; simpa using htr1
  | ok u =>
    dsimp only
    rcases h2 : GetUserFactors o T u.ID with ⟨res2, tr2⟩
    have htr2 : tr2 = [getUserFactorsHttpRequest o u.ID] := by
      have h := GetUserFactors_snd o T u.ID
      rw [h2] at h
      exact h
    cases res2 with
    | error e =>
      right; left
      exact ⟨u.ID, by simp [htr1, htr2]⟩
    | ok factors =>
      dsimp only
      cases h3 : MatchFactorVP u identifier factors with
      | error e =>
        right; left
        exact ⟨u.ID, by simp [htr1, htr2]⟩
      | ok p =>
        rcases p with ⟨fid, fty⟩
        dsimp only
        rcases h4 : makeRequest o T "POST"
            (o.Domain ++ "/api/v1/users/" ++ u.ID ++ "/factors/" ++ fid ++ "/verify")
            (some (encodeVerifyFactorRequest { PassCode := passcode, StateToken := "" }))
          with ⟨res3, tr3⟩
        have htr3 : tr3 = [passcodeHttpRequest o u.ID fid passcode] := by
          have h := makeRequest_snd o T "POST"
            (o.Domain ++ "/api/v1/users/" ++ u.ID ++ "/factors/" ++ fid ++ "/verify")
            (some (encodeVerifyFactorRequest { PassCode := passcode, StateToken := "" }))
          rw [h4] at h
          exact h
        right; right
        refine ⟨u.ID, fid, ?_⟩
        cases res3 with
        | error e => simp [htr1, htr2, htr3]
        | ok resp =>
          dsimp only
          split
          · simp [htr1, htr2, htr3]
          · split <;> simp [htr1, htr2, htr3]

theorem RegisterUser_snd_cases (o : Auth) (T : Transport) (rq : RegistrationRequest) :
    (RegisterUser o T rq).2 = []
    ∨ (RegisterUser o T rq).2 = [registrationHttpRequest o (defaultedRegistration rq)] := by
  cases hb : (rq.Profile.Email == "" && rq.Profile.MobilePhone == "") with
  | true => left; simp [RegisterUser, hb]
  | false =>
    right
    refine RegisterUser_snd_of_valid ?_
    rintro ⟨he, hp⟩
    rw [he, hp] at hb
    simp at hb

theorem encodeRegistrationRequest_getField_profile (rq : RegistrationRequest) :
    (encodeRegistrationRequest rq).getField "profile" = some (encodeUserProfile rq.Profile) :=
  rfl

theorem encodeUserProfile_getField_login (p : UserProfile) :
    (encodeUserProfile p).getField "login" = some (Json.str p.Login) := by
  cases hE : (p.Email == "") <;> cases hP : (p.MobilePhone == "") <;>
    simp [encodeUserProfile, Json.getField, hE, hP, List.lookup]

theorem wireLogin_RegisterUser {o : Auth} {T : Transport} {rq : RegistrationRequest}
    (hval : ¬(rq.Profile.Email = "" ∧ rq.Profile.MobilePhone = "")) :
    wireLogin (RegisterUser o T rq).2 = some (defaultedRegistration rq).Profile.Login := by
  rw [RegisterUser_snd_of_valid hval]
  unfold wireLogin registrationHttpRequest buildRequest
  simp [encodeRegistrationRequest_getField_profile, encodeUserProfile_getField_login]

theorem defaultedRegistration_login_unset_email {rq : RegistrationRequest}
    (h1 : rq.Profile.Login = "") (h2 : rq.Profile.Email ≠ "") :
    (defaultedRegistration rq).Profile.Login = rq.Profile.Email := by
  simp [defaultedRegistration, h1, h2]

theorem defaultedRegistration_login_unset_phone {rq : RegistrationRequest}
    (h1 : rq.Profile.Login = "") (h2 : rq.Profile.Email = "") :
    (defaultedRegistration rq).Profile.Login = rq.Profile.MobilePhone := by
  simp [defaultedRegistration, h1, h2]

theorem defaultedRegistration_login_set {rq : RegistrationRequest}
    (h1 : rq.Profile.Login ≠ "") :
    (defaultedRegistration rq).Profile.Login = rq.Profile.Login := by
  simp [defaultedRegistration, h1]

theorem factorIdAssert_snd_false {f : Json} (h : (factorIdAssert f).2 = false) :
    (factorIdAssert f).1 = "" := by
  cases f with
  | obj m =>
    have h2 : (mapGetString m "id").2 = false := by simpa [factorIdAssert] using h
    have h3 := mapGetString_snd_false h2
    simp [factorIdAssert, h3]
  | null => rfl
  | bool b => rfl
  | num n => rfl
  | str s => rfl
  | arr xs => rfl

/-- C1 counterexample: the identity u1 with email a@x.com, the factor
list holding first an OKTA email factor with no id field and second a
fully qualifying OKTA email factor with id f1, and the identifier
a@x.com. Both factors satisfy the matching predicate of the claim, yet
the selection in both flows fails with the factor-not-found error
instead of returning the first satisfying factor. -/
theorem C1_counterexample :
    factorMatches cxUser "a@x.com" cxFactorNoId = true
    ∧ factorMatches cxUser "a@x.com" cxFactorGood = true
    ∧ MatchFactorVEOP cxUser "a@x.com" [cxFactorNoId, cxFactorGood] =
        Except.error "email or SMS factor not found for user"
    ∧ MatchFactorVP cxUser "a@x.com" [cxFactorNoId, cxFactorGood] =
        Except.error "email or SMS factor not found for user" :=
  ⟨rfl, rfl, rfl, rfl⟩

/-- C1 (amended): in both flows the selection scans the provider list
in order for the first factor satisfying the predicate (OKTA provider,
email or sms type, a corresponding non-empty profile field that the
identifier equals, or the identifier equals the opaque id). When no
factor satisfies the predicate it fails with the factor-not-found
error; when the first satisfying factor exists, the selection returns
its id and type provided the id field asserts to a non-empty string,
and fails with the same factor-not-found error otherwise. -/
theorem C1_matchFactor_amended (user : User) (identifier : String) (factors : List Json) :
    (factors.find? (factorMatches user identifier) = none →
      MatchFactorVEOP user identifier factors =
        Except.error "email or SMS factor not found for user"
      ∧ MatchFactorVP user identifier factors =
        Except.error "email or SMS factor not found for user")
    ∧ (∀ f : Json, factors.find? (factorMatches user identifier) = some f →
        ((factorIdAssert f).1 ≠ "" →
          MatchFactorVEOP user identifier factors =
            Except.ok ((factorIdAssert f).1, (factorTypeAssert f).1)
          ∧ MatchFactorVP user identifier factors =
            Except.ok ((factorIdAssert f).1, (factorTypeAssert f).1))
        ∧ ((factorIdAssert f).1 = "" →
          MatchFactorVEOP user identifier factors =
            Except.error "email or SMS factor not found for user"
          ∧ MatchFactorVP user identifier factors =
            Except.error "email or SMS factor not found for user")) := by
  constructor
  · intro h
    have h1 := MatchFactorVEOP_of_find_none h
    exact ⟨h1, by rw [← matchFactor_selections_eq]; exact h1⟩
  · intro f hf
    have h1 := MatchFactorVEOP_of_find_some hf
    constructor
    · intro hid
      have h2 : MatchFactorVEOP user identifier factors =
          Except.ok ((factorIdAssert f).1, (factorTypeAssert f).1) := by
        rw [h1]
        simp [hid]
      exact ⟨h2, by rw [← matchFactor_selections_eq]; exact h2⟩
    · intro hid
      have h2 : MatchFactorVEOP user identifier factors =
          Except.error "email or SMS factor not found for user" := by
        rw [h1]
        simp [hid]
      exact ⟨h2, by rw [← matchFactor_selections_eq]; exact h2⟩

/-- C1 witness: on the singleton list holding the fully qualifying
factor, both selections return the pair (f1, email). -/
theorem C1_matchFactor_amended_witness :
    MatchFactorVEOP cxUser "a@x.com" [cxFactorGood] = Except.ok ("f1", "email")
    ∧ MatchFactorVP cxUser "a@x.com" [cxFactorGood] = Except.ok ("f1", "email") :=
  ((C1_matchFactor_amended cxUser "a@x.com" [cxFactorGood]).2 cxFactorGood rfl).1
    (by decide)

/-- C4: for every registration request with both email and mobile
phone empty, RegisterUser fails with the validation error and the
list of requests handed to the transport is empty. -/
theorem C4_empty_contact_validation (o : Auth) (T : Transport) (rq : RegistrationRequest)
    (h1 : rq.Profile.Email = "") (h2 : rq.Profile.MobilePhone = "") :
    RegisterUser o T rq =
      (Except.error "at least one of email or mobilePhone must be provided for registration",
       []) := by
  unfold RegisterUser
  simp [h1, h2]

/-- C4 witness: the concrete registration request with empty contact
fields yields the validation error and an empty request trace. -/
theorem C4_empty_contact_validation_witness :
    RegisterUser cxAuth cxTransportHappy cxEmptyRegistration =
      (Except.error "at least one of email or mobilePhone must be provided for registration",
       []) :=
  C4_empty_contact_validation cxAuth cxTransportHappy cxEmptyRegistration rfl rfl

/-- C5 counterexample: on a 404 lookup with error body code E0000007
and summary Not found, GetUser fails with the message naming only the
status and the summary, and the same 404 with a different error code
E0000099 produces exactly the same error value, so the returned error
does not carry the provider error code. -/
theorem C5_counterexample :
    (GetUser cxAuth cxTransport404 "u9").1 =
      Except.error "failed to get user (status: 404): Not found"
    ∧ (GetUser cxAuth cxTransport404b "u9").1 = (GetUser cxAuth cxTransport404 "u9").1 :=
  ⟨rfl, rfl⟩

/-- C5 (amended): GetUser returns the decoded Identity exactly on
HTTP 200; on any other status it decodes an ErrorResponse and fails
with the uniform provider error message carrying the HTTP status and
the provider error summary (the decoded error code is not included in
the error), never a distinct local not-found error kind. -/
theorem C5_getUser_amended (o : Auth) (T : Transport) (identifier : String)
    {resp : HttpResponse}
    (h : T (getUserHttpRequest o identifier) = TransportResult.success resp) :
    (∀ u : User, resp.StatusCode = 200 → decodeUser resp.Body = Except.ok u →
      (GetUser o T identifier).1 = Except.ok u)
    ∧ (∀ er : ErrorResponse, resp.StatusCode ≠ 200 →
      decodeErrorResponse resp.Body = Except.ok er →
      (GetUser o T identifier).1 =
        Except.error ("failed to get user (status: " ++ toString resp.StatusCode
          ++ "): " ++ er.ErrorSummary)) :=
  ⟨fun u hs hd => by rw [GetUser_ok h hs hd],
   fun er hs hd => by rw [GetUser_providerError h hs hd]⟩

/-- C5 witness: the 404 lookup from the counterexample input, settled
through the amended theorem. -/
theorem C5_getUser_amended_witness :
    (GetUser cxAuth cxTransport404 "u9").1 =
      Except.error "failed to get user (status: 404): Not found" :=
  (C5_getUser_amended cxAuth cxTransport404 "u9" rfl).2
    { ErrorCode := "E0000007", ErrorSummary := "Not found", ErrorLink := "",
      ErrorID := "", ErrorCauses := [] }
    (by decide) rfl

/-- C7: the factor-scanning loop of VerifyEmailOrPhone and the
duplicated loop of VerifyPasscode are equivalent: on every identity,
identifier and factor list they compute the same (factorID, factorType)
pair, and the two selections including the factor-not-found check
agree on every input. -/
theorem C7_duplicate_loops_equivalent (user : User) (identifier : String)
    (factors : List Json) :
    findFactorVEOP user identifier factors = findFactorVP user identifier factors
    ∧ MatchFactorVEOP user identifier factors = MatchFactorVP user identifier factors :=
  ⟨findFactor_loops_eq user identifier factors,
   matchFactor_selections_eq user identifier factors⟩

/-- C9: in both flows, when the first factor satisfying the matching
predicate has an id field that is absent or not a string, the scan
stops there with an empty factor id and the selection fails with the
factor-not-found error, for every remainder of the list, even one
holding a fully qualifying factor. -/
theorem C9_invalid_id_stops_scan (user : User) (identifier : String) (f : Json)
    (rest : List Json)
    (hm : factorMatches user identifier f = true)
    (hid : (factorIdAssert f).2 = false) :
    findFactorVEOP user identifier (f :: rest) = ("", (factorTypeAssert f).1)
    ∧ findFactorVP user identifier (f :: rest) = ("", (factorTypeAssert f).1)
    ∧ MatchFactorVEOP user identifier (f :: rest) =
        Except.error "email or SMS factor not found for user"
    ∧ MatchFactorVP user identifier (f :: rest) =
        Except.error "email or SMS factor not found for user" := by
  have hid1 : (factorIdAssert f).1 = "" := factorIdAssert_snd_false hid
  have h1 : findFactorVEOP user identifier (f :: rest) = ("", (factorTypeAssert f).1) := by
    rw [findFactorVEOP_cons]
    simp [hm, hid1]
  have h2 : findFactorVP user identifier (f :: rest) = ("", (factorTypeAssert f).1) := by
    rw [findFactorVP_cons]
    simp [hm, hid1]
  refine ⟨h1, h2, ?_, ?_⟩
  · unfold MatchFactorVEOP
    rw [h1]
    simp
  · unfold MatchFactorVP
    rw [h2]
    simp

/-- C9 witness: the matching factor with no id followed by a fully
qualifying factor, on the concrete identity and identifier. -/
theorem C9_invalid_id_stops_scan_witness :
    MatchFactorVEOP cxUser "a@x.com" [cxFactorNoId, cxFactorGood] =
      Except.error "email or SMS factor not found for user"
    ∧ MatchFactorVP cxUser "a@x.com" [cxFactorNoId, cxFactorGood] =
      Except.error "email or SMS factor not found for user" := by
  have h := C9_invalid_id_stops_scan cxUser "a@x.com" cxFactorNoId [cxFactorGood] rfl rfl
  exact ⟨h.2.2.1, h.2.2.2⟩

/-- C2: on a 2xx provider response (with a decodable Identity body for
registration), RegisterUser and VerifyPasscode each return the
configured ClientID of the Auth struct, not the provider-assigned
identity id, and the two returned values coincide. -/
theorem C2_returns_configured_clientID (o : Auth) (T1 T2 : Transport)
    (rq : RegistrationRequest) (identifier passcode : String)
    {resp1 respU respF respV : HttpResponse} {u uReg : User} {factors : List Json}
    {fid fty : String}
    (hval : ¬(rq.Profile.Email = "" ∧ rq.Profile.MobilePhone = ""))
    (h1 : T1 (registrationHttpRequest o (defaultedRegistration rq)) =
      TransportResult.success resp1)
    (h1s : 200 ≤ resp1.StatusCode ∧ resp1.StatusCode < 300)
    (h1d : decodeUser resp1.Body = Except.ok uReg)
    (hU : T2 (getUserHttpRequest o identifier) = TransportResult.success respU)
    (hUs : respU.StatusCode = 200) (hUd : decodeUser respU.Body = Except.ok u)
    (hF : T2 (getUserFactorsHttpRequest o u.ID) = TransportResult.success respF)
    (hFs : respF.StatusCode = 200) (hFd : decodeFactors respF.Body = Except.ok factors)
    (hM : MatchFactorVP u identifier factors = Except.ok (fid, fty))
    (hV : T2 (passcodeHttpRequest o u.ID fid passcode) = TransportResult.success respV)
    (hVs : 200 ≤ respV.StatusCode ∧ respV.StatusCode < 300) :
    (RegisterUser o T1 rq).1 = Except.ok o.ClientID
    ∧ (VerifyPasscode o T2 identifier passcode).1 = Except.ok o.ClientID
    ∧ (RegisterUser o T1 rq).1 = (VerifyPasscode o T2 identifier passcode).1 := by
  have hr : (RegisterUser o T1 rq).1 = Except.ok o.ClientID := by
    rw [RegisterUser_ok hval h1 h1s h1d]
  have hv := VerifyPasscode_ok2xx hU hUs hUd hF hFs hFd hM hV hVs
  exact ⟨hr, hv, by rw [hr, hv]⟩

/-- C2 witness: registration against a transport answering 200 with an
identity body, and passcode verification through the happy-path
transport, both return the configured client id cid. -/
theorem C2_returns_configured_clientID_witness :
    (RegisterUser cxAuth cxTransport200 cxRegistration).1 = Except.ok "cid"
    ∧ (VerifyPasscode cxAuth cxTransportHappy "a@x.com" "123456").1 = Except.ok "cid"
    ∧ (RegisterUser cxAuth cxTransport200 cxRegistration).1 =
        (VerifyPasscode cxAuth cxTransportHappy "a@x.com" "123456").1 :=
  C2_returns_configured_clientID cxAuth cxTransport200 cxTransportHappy cxRegistration
    "a@x.com" "123456" (by decide) rfl (by decide) rfl rfl rfl rfl rfl rfl rfl rfl rfl
    (by decide)

/-- C3: StartVerification treats exactly HTTP 200 and 202 as
acceptable challenge responses; on them it decodes the body and
returns the sessionToken field, and on any other status it decodes an
ErrorResponse and fails with the provider error message carrying the
matched factor type. -/
theorem C3_challenge_accepts_200_202 (o : Auth) (T : Transport) (identifier : String)
    {respU respF respV : HttpResponse} {u : User} {factors : List Json}
    {fid fty : String}
    (hU : T (getUserHttpRequest o identifier) = TransportResult.success respU)
    (hUs : respU.StatusCode = 200) (hUd : decodeUser respU.Body = Except.ok u)
    (hF : T (getUserFactorsHttpRequest o u.ID) = TransportResult.success respF)
    (hFs : respF.StatusCode = 200) (hFd : decodeFactors respF.Body = Except.ok factors)
    (hM : MatchFactorVEOP u identifier factors = Except.ok (fid, fty))
    (hV : T (challengeHttpRequest o u.ID fid) = TransportResult.success respV) :
    (∀ v : VerifyFactorResponse,
      (respV.StatusCode = 200 ∨ respV.StatusCode = 202) →
      decodeVerifyFactorResponse respV.Body = Except.ok v →
      (VerifyEmailOrPhone o T identifier).1 = Except.ok v.SessionToken)
    ∧ (∀ er : ErrorResponse,
      respV.StatusCode ≠ 200 → respV.StatusCode ≠ 202 →
      decodeErrorResponse respV.Body = Except.ok er →
      (VerifyEmailOrPhone o T identifier).1 =
        Except.error ("failed to trigger " ++ fty ++ " verification (status: "
          ++ toString respV.StatusCode ++ "): " ++ er.ErrorSummary)) :=
  ⟨fun _v hs hd => VerifyEmailOrPhone_accept hU hUs hUd hF hFs hFd hM hV hs hd,
   fun _er hs1 hs2 hd => VerifyEmailOrPhone_reject hU hUs hUd hF hFs hFd hM hV hs1 hs2 hd⟩

/-- C3 witness: against a provider answering the challenge with 202
and a sessionToken body tok123, StartVerification on a@x.com returns
tok123 without error. -/
theorem C3_challenge_accepts_200_202_witness :
    (VerifyEmailOrPhone cxAuth cxTransportHappy "a@x.com").1 = Except.ok "tok123" :=
  (C3_challenge_accepts_200_202 cxAuth cxTransportHappy "a@x.com"
      rfl rfl rfl rfl rfl rfl rfl rfl).1
    { Status := "", SessionToken := "tok123" } (Or.inr rfl) rfl

/-- C6: for every registration surviving validation, the login field
inside the profile object of the JSON body sent on the wire equals the
email when the caller left login unset and email is non-empty, the
mobile phone when login is unset and email is empty, and the caller
supplied login unchanged otherwise. -/
theorem C6_wire_login_defaulting (o : Auth) (T : Transport) (rq : RegistrationRequest)
    (hval : rq.Profile.Email ≠ "" ∨ rq.Profile.MobilePhone ≠ "") :
    (rq.Profile.Login = "" → rq.Profile.Email ≠ "" →
      wireLogin (RegisterUser o T rq).2 = some rq.Profile.Email)
    ∧ (rq.Profile.Login = "" → rq.Profile.Email = "" →
      wireLogin (RegisterUser o T rq).2 = some rq.Profile.MobilePhone)
    ∧ (rq.Profile.Login ≠ "" →
      wireLogin (RegisterUser o T rq).2 = some rq.Profile.Login) := by
  have hval2 : ¬(rq.Profile.Email = "" ∧ rq.Profile.MobilePhone = "") := by
    rintro ⟨he, hp⟩
    rcases hval with h | h <;> exact h (by assumption)
  refine ⟨?_, ?_, ?_⟩
  · intro h1 h2
    rw [wireLogin_RegisterUser hval2, defaultedRegistration_login_unset_email h1 h2]
  · intro h1 h2
    rw [wireLogin_RegisterUser hval2, defaultedRegistration_login_unset_phone h1 h2]
  · intro h1
    rw [wireLogin_RegisterUser hval2, defaultedRegistration_login_set h1]

/-- C6 witness: the concrete registration with login unset and email
a@x.com sends a@x.com as the wire login. -/
theorem C6_wire_login_defaulting_witness :
    wireLogin (RegisterUser cxAuth cxTransport200 cxRegistration).2 = some "a@x.com" :=
  (C6_wire_login_defaulting cxAuth cxTransport200 cxRegistration
      (Or.inl (by decide))).1 rfl (by decide)

/-- C8: every request handed to the transport, by makeRequest directly
and by each of the four public operations, carries exactly the three
fixed headers Accept application/json, Content-Type application/json
and Authorization SSWS token. -/
theorem C8_fixed_headers (o : Auth) (T : Transport) (method urlStr : String)
    (body : Option Json) (rq : RegistrationRequest) (identifier passcode : String)
    (r : HttpRequest) :
    (r ∈ (makeRequest o T method urlStr body).2 →
      r.headers = [("Accept", "application/json"), ("Content-Type", "application/json"),
                   ("Authorization", "SSWS " ++ o.APIToken)])
    ∧ (r ∈ (RegisterUser o T rq).2 →
      r.headers = [("Accept", "application/json"), ("Content-Type", "application/json"),
                   ("Authorization", "SSWS " ++ o.APIToken)])
    ∧ (r ∈ (GetUser o T identifier).2 →
      r.headers = [("Accept", "application/json"), ("Content-Type", "application/json"),
                   ("Authorization", "SSWS " ++ o.APIToken)])
    ∧ (r ∈ (VerifyEmailOrPhone o T identifier).2 →
      r.headers = [("Accept", "application/json"), ("Content-Type", "application/json"),
                   ("Authorization", "SSWS " ++ o.APIToken)])
    ∧ (r ∈ (VerifyPasscode o T identifier passcode).2 →
      r.headers = [("Accept", "application/json"), ("Content-Type", "application/json"),
                   ("Authorization", "SSWS " ++ o.APIToken)]) := by
  refine ⟨?_, ?_, ?_, ?_, ?_⟩
  · intro hmem
    rw [makeRequest_snd] at hmem
    simp at hmem
    subst hmem
    rfl
  · intro hmem
    rcases RegisterUser_snd_cases o T rq with hc | hc <;> rw [hc] at hmem
    · simp at hmem
    · simp at hmem
      subst hmem
      rfl
  · intro hmem
    rw [GetUser_snd] at hmem
    simp at hmem
    subst hmem
    rfl
  · intro hmem
    rcases VerifyEmailOrPhone_snd_cases o T identifier with hc | ⟨uid, hc⟩ | ⟨uid, fid, hc⟩ <;>
      rw [hc] at hmem <;> simp at hmem
    · subst hmem
      rfl
    · rcases hmem with h | h <;> subst h <;> rfl
    · rcases hmem with h | h | h <;> subst h <;> rfl
  · intro hmem
    rcases VerifyPasscode_snd_cases o T identifier passcode with hc | ⟨uid, hc⟩ | ⟨uid, fid, hc⟩ <;>
      rw [hc] at hmem <;> simp at hmem
    · subst hmem
      rfl
    · rcases hmem with h | h <;> subst h <;> rfl
    · rcases hmem with h | h | h <;> subst h <;> rfl

/-- C8 witness: the single request of a concrete GetUser call carries
exactly the three fixed headers with the configured token. -/
theorem C8_fixed_headers_witness :
    (getUserHttpRequest cxAuth "a@x.com").headers =
      [("Accept", "application/json"), ("Content-Type", "application/json"),
       ("Authorization", "SSWS tok")] :=
  (C8_fixed_headers cxAuth cxTransportHappy "GET" "" none cxRegistration
      "a@x.com" "123456" (getUserHttpRequest cxAuth "a@x.com")).2.2.1
    (by rw [GetUser_snd]; exact List.mem_singleton.mpr rfl)

/-- C10: once the passcode flow reaches its final call, any 2xx status
makes VerifyPasscode succeed with the configured client id for every
response body whatsoever (the body is not read), while on a non-2xx
status the body is decoded and a decode failure surfaces as an error. -/
theorem C10_success_ignores_body (o : Auth) (T : Transport)
    (identifier passcode : String) (s : Nat) (body : Option Json)
    {respU respF : HttpResponse} {u : User} {factors : List Json} {fid fty : String}
    (hU : T (getUserHttpRequest o identifier) = TransportResult.success respU)
    (hUs : respU.StatusCode = 200) (hUd : decodeUser respU.Body = Except.ok u)
    (hF : T (getUserFactorsHttpRequest o u.ID) = TransportResult.success respF)
    (hFs : respF.StatusCode = 200) (hFd : decodeFactors respF.Body = Except.ok factors)
    (hM : MatchFactorVP u identifier factors = Except.ok (fid, fty))
    (hV : T (passcodeHttpRequest o u.ID fid passcode) =
      TransportResult.success { StatusCode := s, Body := body }) :
    (200 ≤ s → s < 300 →
      (VerifyPasscode o T identifier passcode).1 = Except.ok o.ClientID)
    ∧ (¬(200 ≤ s ∧ s < 300) → ∀ e : String,
      decodeErrorResponse body = Except.error e →
      (VerifyPasscode o T identifier passcode).1 =
        Except.error ("failed to decode error response (status: "
          ++ toString s ++ "): " ++ e)) := by
  constructor
  · intro hs1 hs2
    exact VerifyPasscode_ok2xx hU hUs hUd hF hFs hFd hM hV ⟨hs1, hs2⟩
  · intro hs e hd
    have h2 := VerifyPasscode_non2xx_decodeFail hU hUs hUd hF hFs hFd hM hV hs hd
    simpa using h2

/-- C10 witness: the happy transport returns 202 with a JSON body that
is not an ErrorResponse shape, and verification still succeeds with
the configured client id. -/
theorem C10_success_ignores_body_witness :
    (VerifyPasscode cxAuth cxTransportHappy "a@x.com" "000000").1 = Except.ok "cid" :=
  (C10_success_ignores_body cxAuth cxTransportHappy "a@x.com" "000000" 202
      (some (Json.obj [("sessionToken", Json.str "tok123")]))
      rfl rfl rfl rfl rfl rfl rfl rfl).1 (by decide) (by decide)
